import Mathlib

/-!
Shallow embedding of the `mcp_open_meteo_elicit` weather server
(`location_resolver.py`, `tools.py`, `api_client.py`) and proofs of the
specification's claims about it.

Modelling conventions:
* Python dict candidates from the geocoding API become the `Candidate`
  structure; per the external search schema, identifier, name, coordinates,
  country and timezone are always present, while admin names, population and
  elevation are optional.
* `ValueError` exceptions become an `Err` inductive; fallible handlers return
  `Except Err _`.
* The elicitation round trip (`ctx.elicit`) is a pure parameter: the outcome
  the external actor would return is passed in, and the resolver reports
  whether (and with which option lines and message) an elicitation was issued.
* Floats of the weather payload are modelled as `Rat`; the code only moves
  them around and compares wind speed with `>`.
* Logging calls (`ctx.info` etc.) have no effect on control flow and are
  dropped.
-/

/-- A raw geocoding match, as consumed from the search response. -/
structure Candidate where
  id : Nat
  name : String
  latitude : Rat
  longitude : Rat
  country : String
  admin1 : Option String
  admin2 : Option String
  timezone : String
  population : Option Nat
  elevation : Option Rat
deriving DecidableEq, Repr

/-- Modelled from the spec: `models.py` is not among the sources. `LocationInfo`
is the resolved-location record with the same fields as a candidate, promoted
to canonical form (spec §3, ResolvedLocation). -/
structure LocationInfo where
  id : Nat
  name : String
  latitude : Rat
  longitude : Rat
  country : String
  admin1 : Option String
  admin2 : Option String
  timezone : String
  population : Option Nat
  elevation : Option Rat
deriving DecidableEq, Repr

/-- Promotion of a candidate dict to `LocationInfo`, mirroring the keyword
arguments of the `LocationInfo(...)` constructions in `location_resolver.py`
(`loc.get("country", "")` is total here because the search schema always
carries a country). -/
def toLocationInfo (loc : Candidate) : LocationInfo :=
  { id := loc.id
    name := loc.name
    latitude := loc.latitude
    longitude := loc.longitude
    country := loc.country
    admin1 := loc.admin1
    admin2 := loc.admin2
    timezone := loc.timezone
    population := loc.population
    elevation := loc.elevation }

/-- The three-way outcome tag of the elicitation exchange. -/
inductive ElicitAction where
  | accept
  | decline
  | cancel
deriving DecidableEq, Repr

/-- Modelled from the spec: `models.py` is not among the sources.
`LocationChoice` is the elicitation schema requiring a single integer
selection, read as `result.data.selected_location_id`. -/
structure LocationChoice where
  selected_location_id : Int
deriving DecidableEq, Repr

/-- The elicitation result: an action tag, and a payload present only when
accepted (`result.data`; a `none` payload is falsy in the source's
`not result.data` test). -/
structure ElicitResult where
  action : ElicitAction
  data : Option LocationChoice
deriving DecidableEq, Repr

/-- The `ValueError`s the tool layer can raise, by their role (spec §7
taxonomy). `notFound` carries the original query text, as the source message
does. -/
inductive Err where
  | notFound (query : String)
  | selectionError
  | tooShort
deriving DecidableEq, Repr

/-- Modelled from the spec: `config.py` is not among the sources. The
truncation site's comment in `location_resolver.py` fixes the display cap at
the top 5 candidates. -/
def MAX_LOCATION_ELICITATION_OPTIONS : Nat := 5

/-- Python truthiness of an optional string (`loc.get("admin1")` is falsy for
a missing key and for an empty string). -/
def truthyStr : Option String → Bool
  | some s => !s.isEmpty
  | none => false

/-- Reversed digit characters grouped in threes, with fuel for termination;
building block of the thousands-separator format. -/
def groupsOfThreeRev : List Char → Nat → List String
  | _, 0 => []
  | [], _ => []
  | l, fuel + 1 => String.mk (l.take 3) :: groupsOfThreeRev (l.drop 3) fuel

/-- Python's format spec with a comma (`f"{n:,}"`): the decimal digits of `n`
with a thousands separator every three digits. -/
def commaFormat (n : Nat) : String :=
  let rev := (toString n).toList.reverse
  String.mk (String.intercalate "," (groupsOfThreeRev rev rev.length)).toList.reverse

/-- The `admin_parts` list of `location_resolver.py`: first-level admin name
when truthy, then second-level admin name when truthy and different from the
first-level value. -/
def adminParts (loc : Candidate) : List String :=
  (if truthyStr loc.admin1 then [loc.admin1.getD ""] else []) ++
    (if truthyStr loc.admin2 ∧ loc.admin2 ≠ loc.admin1 then [loc.admin2.getD ""] else [])

/-- The `admin_str` interpolation: `", "` followed by the comma-joined admin
parts when any exist, otherwise empty. -/
def admin_str (loc : Candidate) : String :=
  if adminParts loc = [] then "" else ", " ++ String.intercalate ", " (adminParts loc)

/-- The `pop_str` interpolation: population with thousands separators when the
population value is truthy (present and non-zero), otherwise empty. -/
def pop_str (loc : Candidate) : String :=
  match loc.population with
  | some p => if p ≠ 0 then " (pop. " ++ commaFormat p ++ ")" else ""
  | none => ""

/-- One rendered option line
(`f"{i+1}. {loc['name']}{admin_str}, {loc['country']}{pop_str}"`). -/
def optionText (i : Nat) (loc : Candidate) : String :=
  toString (i + 1) ++ ". " ++ loc.name ++ admin_str loc ++ ", " ++ loc.country ++ pop_str loc

/-- The `enumerate` loop over the truncated candidates, carrying the running
index. -/
def optionLinesAux : Nat → List Candidate → List String
  | _, [] => []
  | i, loc :: rest => optionText i loc :: optionLinesAux (i + 1) rest

/-- The `location_options` list: one line per truncated candidate, numbered
from 1. -/
def locationOptions (locations : List Candidate) : List String :=
  optionLinesAux 0 (locations.take MAX_LOCATION_ELICITATION_OPTIONS)

/-- The assembled elicitation message around the joined option lines. -/
def mkElicitMessage (locationName : String) (optionsText : String) : String :=
  "Multiple locations found for \x27" ++ locationName ++ "\x27:\n\n" ++ optionsText ++
    "\n\nPlease select the correct location:"

instance {ε α : Type} [DecidableEq ε] [DecidableEq α] : DecidableEq (Except ε α) := fun x y =>
  match x, y with
  | Except.ok a, Except.ok b =>
    if h : a = b then isTrue (by rw [h]) else isFalse (by simp [h])
  | Except.error a, Except.error b =>
    if h : a = b then isTrue (by rw [h]) else isFalse (by simp [h])
  | Except.ok _, Except.error _ => isFalse (by simp)
  | Except.error _, Except.ok _ => isFalse (by simp)

/-- What `resolve_location` did: its `Except` result, and the elicitation it
issued, if any, as (option lines, message). -/
structure ResolveOutcome where
  result : Except Err LocationInfo
  elicitation : Option (List String × String)
deriving DecidableEq, Repr

/-- The multiple-results branch of `resolve_location`: truncate, render
options, elicit, validate the selection, and index the candidate list. -/
def resolveMulti (locationName : String) (locations : List Candidate)
    (er : ElicitResult) : ResolveOutcome :=
  let truncated := locations.take MAX_LOCATION_ELICITATION_OPTIONS
  let options := locationOptions locations
  let message := mkElicitMessage locationName (String.intercalate "\n" options)
  let res : Except Err LocationInfo :=
    if er.action = ElicitAction.accept then
      match er.data with
      | some choice =>
        let selectedIndex : Int := choice.selected_location_id - 1
        if selectedIndex < 0 ∨ (truncated.length : Int) ≤ selectedIndex then
          Except.error Err.selectionError
        else
          match locations[selectedIndex.toNat]? with
          | some loc => Except.ok (toLocationInfo loc)
          | none => Except.error Err.selectionError
      | none => Except.error Err.selectionError
    else Except.error Err.selectionError
  { result := res, elicitation := some (options, message) }

/-- `resolve_location` of `location_resolver.py`, with the search results and
the elicitation outcome passed in: empty results raise not-found, a single
result is promoted directly, multiple results go through elicitation. -/
def resolve_location (locationName : String) (locations : List Candidate)
    (er : ElicitResult) : ResolveOutcome :=
  match locations with
  | [] => { result := Except.error (Err.notFound locationName), elicitation := none }
  | [loc] => { result := Except.ok (toLocationInfo loc), elicitation := none }
  | l₁ :: l₂ :: rest => resolveMulti locationName (l₁ :: l₂ :: rest) er

/-- Modelled from the spec: `config.py` is not among the sources. The daily
forecast tool's docstring fixes the day range at 1-16, matching the spec's
16-day maximum. -/
def MAX_FORECAST_DAYS : Nat := 16

/-- Modelled from the spec: `config.py` is not among the sources. The hourly
forecast tool's docstring fixes the hour range at 1-168. -/
def MAX_FORECAST_HOURS : Nat := 168

/-- Modelled from the spec: `constants.py` is not among the sources. The
claims constrain only that the description is a function of the numeric
weather code, so the code is rendered directly. -/
def weather_code_to_description (code : Nat) : String :=
  "weather code " ++ toString code

/-- The `current` block consumed by `get_current_weather`. -/
structure CurrentConditions where
  temperature_2m : Rat
  relative_humidity_2m : Rat
  weather_code : Nat
  wind_speed_10m : Rat
  wind_direction_10m : Rat
  pressure_msl : Rat
  cloud_cover : Rat
  time : String
deriving DecidableEq, Repr

/-- The `current_units` block fields read by `get_current_weather`. -/
structure CurrentUnits where
  temperature_2m : String
  wind_speed_10m : String
deriving DecidableEq, Repr

/-- The weather API response consumed by `get_current_weather`. -/
structure CurrentResponse where
  current : CurrentConditions
  current_units : CurrentUnits
deriving DecidableEq, Repr

/-- The `CurrentWeather` output record, reconstructed from the constructor
keyword arguments in `tools.py`. -/
structure CurrentWeather where
  location : LocationInfo
  temperature : Rat
  temperature_unit : String
  humidity : Rat
  weather_description : String
  weather_code : Nat
  wind_speed : Rat
  wind_direction : Rat
  wind_speed_unit : String
  pressure : Rat
  cloud_cover : Rat
  timestamp : String
deriving DecidableEq, Repr

/-- Python `str.strip()` with no argument: remove leading and trailing
whitespace characters. -/
def pyStrip (s : String) : String :=
  String.mk (((s.toList.dropWhile Char.isWhitespace).reverse.dropWhile
    Char.isWhitespace).reverse)

/-- `search_locations_tool` of `tools.py`: rejects queries whose stripped
length is under 2, clamps the limit into [1, 10], searches, and maps the
results to `LocationInfo`. The geocoding call is the `api` parameter from the
clamped limit. -/
def search_locations_tool (location_name : String) (limit : Int)
    (api : Nat → List Candidate) : Except Err (List LocationInfo) :=
  if (pyStrip location_name).length < 2 then Except.error Err.tooShort
  else
    let limit : Int := max 1 (min limit 10)
    Except.ok ((api limit.toNat).map toLocationInfo)

/-- `get_current_weather` of `tools.py`: resolves the location (propagating
any resolution error; the handler performs no query-length validation of its
own) and reshapes the current-conditions response. -/
def get_current_weather (location_name : String) (locations : List Candidate)
    (er : ElicitResult) (wd : CurrentResponse) : Except Err CurrentWeather :=
  match (resolve_location location_name locations er).result with
  | Except.error e => Except.error e
  | Except.ok location =>
    Except.ok
      { location := location
        temperature := wd.current.temperature_2m
        temperature_unit := wd.current_units.temperature_2m
        humidity := wd.current.relative_humidity_2m
        weather_description := weather_code_to_description wd.current.weather_code
        weather_code := wd.current.weather_code
        wind_speed := wd.current.wind_speed_10m
        wind_direction := wd.current.wind_direction_10m
        wind_speed_unit := wd.current_units.wind_speed_10m
        pressure := wd.current.pressure_msl
        cloud_cover := wd.current.cloud_cover
        timestamp := wd.current.time }

/-- The `daily` block consumed by `get_weather_forecast`. -/
structure DailyBlock where
  time : List String
  temperature_2m_max : List Rat
  temperature_2m_min : List Rat
  weather_code : List Nat
  precipitation_sum : List Rat
  wind_speed_10m_max : List Rat
  wind_direction_10m_dominant : List Rat
deriving DecidableEq, Repr

/-- The `daily_units` block fields read by `get_weather_forecast`. -/
structure DailyUnits where
  temperature_2m_max : String
  precipitation_sum : String
  wind_speed_10m_max : String
deriving DecidableEq, Repr

/-- The weather API response consumed by `get_weather_forecast`. -/
structure DailyResponse where
  daily : DailyBlock
  daily_units : DailyUnits
deriving DecidableEq, Repr

/-- The `DailyForecast` output record, reconstructed from the constructor
keyword arguments in `tools.py`. -/
structure DailyForecast where
  date : String
  temperature_max : Rat
  temperature_min : Rat
  temperature_unit : String
  weather_description : String
  weather_code : Nat
  precipitation_sum : Rat
  precipitation_unit : String
  wind_speed_max : Rat
  wind_direction_dominant : Rat
  wind_speed_unit : String
deriving DecidableEq, Repr

/-- The `WeatherForecast` output record (its `generated_at` timestamp is
passed in as `now`). -/
structure WeatherForecast where
  location : LocationInfo
  forecast_days : List DailyForecast
  generated_at : String
deriving DecidableEq, Repr

/-- The clamp `forecast_days = max(1, min(forecast_days, MAX_FORECAST_DAYS))`. -/
def clampForecastDays (forecast_days : Int) : Nat :=
  (max 1 (min forecast_days (MAX_FORECAST_DAYS : Int))).toNat

/-- One iteration of the daily reshaping loop at index `i`. -/
def mkDailyForecast (d : DailyBlock) (u : DailyUnits) (i : Nat) : DailyForecast :=
  { date := d.time.getD i ""
    temperature_max := d.temperature_2m_max.getD i 0
    temperature_min := d.temperature_2m_min.getD i 0
    temperature_unit := u.temperature_2m_max
    weather_description := weather_code_to_description (d.weather_code.getD i 0)
    weather_code := d.weather_code.getD i 0
    precipitation_sum := d.precipitation_sum.getD i 0
    precipitation_unit := u.precipitation_sum
    wind_speed_max := d.wind_speed_10m_max.getD i 0
    wind_direction_dominant := d.wind_direction_10m_dominant.getD i 0
    wind_speed_unit := u.wind_speed_10m_max }

/-- `get_weather_forecast` of `tools.py`: resolves the location, clamps the
requested day count into [1, `MAX_FORECAST_DAYS`], fetches the daily response
for the clamped count (the `api` parameter), and emits one `DailyForecast`
per entry of the returned `time` array. -/
def get_weather_forecast (location_name : String) (locations : List Candidate)
    (er : ElicitResult) (forecast_days : Int) (api : Nat → DailyResponse)
    (now : String) : Except Err WeatherForecast :=
  match (resolve_location location_name locations er).result with
  | Except.error e => Except.error e
  | Except.ok location =>
    let fd := clampForecastDays forecast_days
    let wd := api fd
    Except.ok
      { location := location
        forecast_days :=
          (List.range wd.daily.time.length).map (mkDailyForecast wd.daily wd.daily_units)
        generated_at := now }

/-- The `hourly` block consumed by `get_hourly_forecast`. -/
structure HourlyBlock where
  time : List String
  temperature_2m : List Rat
  relative_humidity_2m : List Rat
  weather_code : List Nat
  precipitation : List Rat
  wind_speed_10m : List Rat
  wind_direction_10m : List Rat
  cloud_cover : List Rat
deriving DecidableEq, Repr

/-- The `hourly_units` block fields read by `get_hourly_forecast`. -/
structure HourlyUnits where
  temperature_2m : String
  precipitation : String
  wind_speed_10m : String
deriving DecidableEq, Repr

/-- The weather API response consumed by `get_hourly_forecast`. The source
issues the hourly request without a `forecast_days` argument, so the response
never depends on the requested hour count. -/
structure HourlyResponse where
  hourly : HourlyBlock
  hourly_units : HourlyUnits
deriving DecidableEq, Repr

/-- The `HourlyWeatherPoint` output record, reconstructed from the constructor
keyword arguments in `tools.py`. -/
structure HourlyWeatherPoint where
  time : String
  temperature : Rat
  humidity : Rat
  weather_code : Nat
  weather_description : String
  precipitation : Rat
  wind_speed : Rat
  wind_direction : Rat
  cloud_cover : Rat
deriving DecidableEq, Repr

/-- The `HourlyForecast` output record (its `generated_at` timestamp is passed
in as `now`). -/
structure HourlyForecast where
  location : LocationInfo
  hourly_data : List HourlyWeatherPoint
  temperature_unit : String
  precipitation_unit : String
  wind_speed_unit : String
  generated_at : String
deriving DecidableEq, Repr

/-- The clamp `forecast_hours = max(1, min(forecast_hours, MAX_FORECAST_HOURS))`. -/
def clampForecastHours (forecast_hours : Int) : Nat :=
  (max 1 (min forecast_hours (MAX_FORECAST_HOURS : Int))).toNat

/-- One iteration of the hourly reshaping loop at index `i`. -/
def mkHourlyPoint (h : HourlyBlock) (i : Nat) : HourlyWeatherPoint :=
  { time := h.time.getD i ""
    temperature := h.temperature_2m.getD i 0
    humidity := h.relative_humidity_2m.getD i 0
    weather_code := h.weather_code.getD i 0
    weather_description := weather_code_to_description (h.weather_code.getD i 0)
    precipitation := h.precipitation.getD i 0
    wind_speed := h.wind_speed_10m.getD i 0
    wind_direction := h.wind_direction_10m.getD i 0
    cloud_cover := h.cloud_cover.getD i 0 }

/-- `get_hourly_forecast` of `tools.py`: resolves the location, clamps the
requested hour count into [1, `MAX_FORECAST_HOURS`], and emits one point per
hour up to `min(forecast_hours, len(hourly["time"]))`. -/
def get_hourly_forecast (location_name : String) (locations : List Candidate)
    (er : ElicitResult) (forecast_hours : Int) (wd : HourlyResponse)
    (now : String) : Except Err HourlyForecast :=
  match (resolve_location location_name locations er).result with
  | Except.error e => Except.error e
  | Except.ok location =>
    let fh := clampForecastHours forecast_hours
    let actualHours := min fh wd.hourly.time.length
    Except.ok
      { location := location
        hourly_data := (List.range actualHours).map (mkHourlyPoint wd.hourly)
        temperature_unit := wd.hourly_units.temperature_2m
        precipitation_unit := wd.hourly_units.precipitation
        wind_speed_unit := wd.hourly_units.wind_speed_10m
        generated_at := now }

/-- One entry of the alerts list of `get_weather_alerts`. -/
structure Alert where
  type : String
  severity : String
  title : String
  description : String
  time : String
deriving DecidableEq, Repr

/-- The `current` block fields read by `get_weather_alerts`. -/
structure AlertsCurrent where
  weather_code : Nat
  wind_speed_10m : Rat
deriving DecidableEq, Repr

/-- The `hourly` block fields read by `get_weather_alerts`. -/
structure AlertsHourly where
  time : List String
  weather_code : List Nat
deriving DecidableEq, Repr

/-- The predicate of the duplicate-suppression test
`any(alert["type"] == "severe_weather" for alert in alerts)`. -/
def isSevereAlert (a : Alert) : Bool :=
  a.type == "severe_weather"

/-- The high-severity current-thunderstorm entry appended by
`get_weather_alerts`. -/
def thunderstormWarningAlert (code : Nat) : Alert :=
  { type := "severe_weather", severity := "high", title := "Thunderstorm Warning",
    description := weather_code_to_description code, time := "current" }

/-- The high-severity current-freezing-rain entry appended by
`get_weather_alerts`. -/
def freezingRainWarningAlert (code : Nat) : Alert :=
  { type := "severe_weather", severity := "high", title := "Freezing Rain Warning",
    description := weather_code_to_description code, time := "current" }

/-- The medium-severity current-snow entry appended by `get_weather_alerts`. -/
def snowAdvisoryAlert (code : Nat) : Alert :=
  { type := "weather_advisory", severity := "medium", title := "Snow Advisory",
    description := weather_code_to_description code, time := "current" }

/-- The medium-severity wind entry appended by `get_weather_alerts`. -/
def highWindWarningAlert (windSpeed : Rat) : Alert :=
  { type := "wind_warning", severity := "medium", title := "High Wind Warning",
    description := "Strong winds at " ++ toString windSpeed ++ " km/h", time := "current" }

/-- The medium-severity upcoming-storm entry appended by `get_weather_alerts`. -/
def incomingThunderstormAlert (t : String) : Alert :=
  { type := "severe_weather", severity := "medium", title := "Incoming Thunderstorm",
    description := "Thunderstorm expected at " ++ t, time := t }

/-- The upcoming-storm loop over the next-24-hour samples: on the first severe
code, when no severe-weather alert exists yet, append one medium-severity
entry and stop; otherwise keep scanning. -/
def scanUpcoming (SEVERE_WEATHER_CODES : List Nat) (pairs : List (String × Nat))
    (alerts : List Alert) : List Alert :=
  match pairs with
  | [] => alerts
  | (t, c) :: rest =>
    if c ∈ SEVERE_WEATHER_CODES ∧ ¬alerts.any isSevereAlert then
      alerts ++ [incomingThunderstormAlert t]
    else scanUpcoming SEVERE_WEATHER_CODES rest alerts

/-- The alerts derived from the current conditions alone: the `if`/`elif`
chain on the current weather code, then the independent wind check. -/
def currentAlerts (SEVERE_WEATHER_CODES FREEZING_RAIN_CODES SNOW_CODES : List Nat)
    (HIGH_WIND_THRESHOLD_KMH : Rat) (current : AlertsCurrent) : List Alert :=
  let alerts0 : List Alert :=
    if current.weather_code ∈ SEVERE_WEATHER_CODES then
      [thunderstormWarningAlert current.weather_code]
    else if current.weather_code ∈ FREEZING_RAIN_CODES then
      [freezingRainWarningAlert current.weather_code]
    else if current.weather_code ∈ SNOW_CODES then
      [snowAdvisoryAlert current.weather_code]
    else []
  if HIGH_WIND_THRESHOLD_KMH < current.wind_speed_10m then
    alerts0 ++ [highWindWarningAlert current.wind_speed_10m]
  else alerts0

/-- The alert rule table of `get_weather_alerts`, parameterised by the code
sets and wind threshold imported from the absent `config.py`: the current
condition checks, then the upcoming-storm scan over the first
`min(24, len(time))` hourly samples. -/
def computeAlerts (SEVERE_WEATHER_CODES FREEZING_RAIN_CODES SNOW_CODES : List Nat)
    (HIGH_WIND_THRESHOLD_KMH : Rat) (current : AlertsCurrent)
    (hourly : AlertsHourly) : List Alert :=
  scanUpcoming SEVERE_WEATHER_CODES ((hourly.time.zip hourly.weather_code).take 24)
    (currentAlerts SEVERE_WEATHER_CODES FREEZING_RAIN_CODES SNOW_CODES
      HIGH_WIND_THRESHOLD_KMH current)

/-- The result dict of `get_weather_alerts` (its `checked_at` timestamp is
passed in as `now`). -/
structure AlertsResult where
  location : LocationInfo
  alerts : List Alert
  alert_count : Nat
  checked_at : String
deriving DecidableEq, Repr

/-- `get_weather_alerts` of `tools.py`: resolves the location, computes the
alert list from the current and hourly blocks, and reports it together with
its length as `alert_count`. -/
def get_weather_alerts (location_name : String) (locations : List Candidate)
    (er : ElicitResult) (SEVERE_WEATHER_CODES FREEZING_RAIN_CODES SNOW_CODES : List Nat)
    (HIGH_WIND_THRESHOLD_KMH : Rat) (current : AlertsCurrent) (hourly : AlertsHourly)
    (now : String) : Except Err AlertsResult :=
  match (resolve_location location_name locations er).result with
  | Except.error e => Except.error e
  | Except.ok location =>
    let alerts := computeAlerts SEVERE_WEATHER_CODES FREEZING_RAIN_CODES SNOW_CODES
      HIGH_WIND_THRESHOLD_KMH current hourly
    Except.ok
      { location := location
        alerts := alerts
        alert_count := alerts.length
        checked_at := now }

/-- Substring containment for strings: `pat` occurs contiguously in `s`. -/
def strContains (s pat : String) : Prop :=
  ∃ p q : String, s = p ++ pat ++ q

/-- Sample candidate used in concrete evaluations. -/
def springfieldIL : Candidate :=
  { id := 1, name := "Springfield", latitude := 39, longitude := -89,
    country := "United States", admin1 := some "Illinois", admin2 := some "Sangamon",
    timezone := "America/Chicago", population := some 1234567, elevation := some 180 }

/-- Sample candidate with coinciding admin levels and no population. -/
def springfieldMO : Candidate :=
  { springfieldIL with
      id := 2, admin1 := some "Missouri", admin2 := some "Missouri",
      population := none }

/-- Sample candidate used in concrete evaluations. -/
def parisCandidate : Candidate :=
  { id := 3, name := "Paris", latitude := 48, longitude := 2, country := "France",
    admin1 := some "Ile-de-France", admin2 := none, timezone := "Europe/Paris",
    population := some 2140526, elevation := some 35 }

/-- Sample non-accepted elicitation outcome. -/
def sampleElicit : ElicitResult := { action := ElicitAction.decline, data := none }

/-- Sample current-conditions response. -/
def sampleCurrentResponse : CurrentResponse :=
  { current :=
      { temperature_2m := 20, relative_humidity_2m := 50, weather_code := 0,
        wind_speed_10m := 10, wind_direction_10m := 180, pressure_msl := 1013,
        cloud_cover := 20, time := "2025-01-01T00:00" },
    current_units := { temperature_2m := "C", wind_speed_10m := "km/h" } }

/-- Sample daily-forecast endpoint returning exactly the requested number of
days. -/
def sampleDailyApi : Nat → DailyResponse := fun d =>
  { daily :=
      { time := List.replicate d "2025-01-01", temperature_2m_max := [],
        temperature_2m_min := [], weather_code := [], precipitation_sum := [],
        wind_speed_10m_max := [], wind_direction_10m_dominant := [] },
    daily_units :=
      { temperature_2m_max := "C", precipitation_sum := "mm",
        wind_speed_10m_max := "km/h" } }

/-- Sample hourly-forecast response. -/
def sampleHourlyResponse : HourlyResponse :=
  { hourly :=
      { time := ["h0", "h1"], temperature_2m := [1, 2],
        relative_humidity_2m := [50, 50], weather_code := [0, 0],
        precipitation := [0, 0], wind_speed_10m := [5, 5],
        wind_direction_10m := [0, 0], cloud_cover := [0, 0] },
    hourly_units :=
      { temperature_2m := "C", precipitation := "mm", wind_speed_10m := "km/h" } }

/-- The alerts result of a sample invocation with no alert conditions. -/
def sampleAlertsResult : AlertsResult :=
  { location := toLocationInfo parisCandidate, alerts := [], alert_count := 0,
    checked_at := "t" }

theorem optionLinesAux_length (l : List Candidate) :
    ∀ i : Nat, (optionLinesAux i l).length = l.length := by
  induction l with
  | nil => intro i; rfl
  | cons c rest ih => intro i; simp [optionLinesAux, ih]

theorem optionLinesAux_getElem? (l : List Candidate) :
    ∀ i j : Nat, (optionLinesAux i l)[j]? = (l[j]?).map (fun c => optionText (i + j) c) := by
  induction l with
  | nil => intro i j; simp [optionLinesAux]
  | cons c rest ih =>
    intro i j
    cases j with
    | zero => simp [optionLinesAux]
    | succ j =>
      have harith : i + 1 + j = i + (j + 1) := by omega
      simp only [optionLinesAux, List.getElem?_cons_succ, ih (i + 1) j, harith]

theorem locationOptions_length (l : List Candidate) :
    (locationOptions l).length = min l.length MAX_LOCATION_ELICITATION_OPTIONS := by
  unfold locationOptions
  rw [optionLinesAux_length, List.length_take, Nat.min_comm]

theorem locationOptions_getElem? (l : List Candidate) (j : Nat) :
    (locationOptions l)[j]?
      = ((l.take MAX_LOCATION_ELICITATION_OPTIONS)[j]?).map (fun c => optionText j c) := by
  unfold locationOptions
  simpa using optionLinesAux_getElem? (l.take MAX_LOCATION_ELICITATION_OPTIONS) 0 j

theorem resolve_location_eq_multi (name : String) (locations : List Candidate)
    (er : ElicitResult) (h : 1 < locations.length) :
    resolve_location name locations er = resolveMulti name locations er := by
  match locations with
  | [] => simp at h
  | [c] => simp at h
  | a :: b :: rest => rfl

/-- Claim C1: for more than one candidate and an accepted selection `k` with
`1 ≤ k` that lands inside the truncated list, `resolve_location` returns the
`LocationInfo` built from the `(k-1)`-th candidate of the truncated prefix,
which in particular lies before the truncation boundary. -/
theorem resolve_location_in_range_selection
    (name : String) (locations : List Candidate) (k : Int) (c : Candidate)
    (hlen : 1 < locations.length) (hk : 1 ≤ k)
    (hsel : (locations.take MAX_LOCATION_ELICITATION_OPTIONS)[(k - 1).toNat]? = some c) :
    (resolve_location name locations
        { action := ElicitAction.accept, data := some { selected_location_id := k } }).result
      = Except.ok (toLocationInfo c)
    ∧ c ∈ locations.take MAX_LOCATION_ELICITATION_OPTIONS := by
  refine ⟨?_, List.getElem?_mem hsel⟩
  rw [resolve_location_eq_multi _ _ _ hlen]
  have hlt : (k - 1).toNat < (locations.take MAX_LOCATION_ELICITATION_OPTIONS).length := by
    rw [List.getElem?_eq_some] at hsel
    exact hsel.1
  have hloc : locations[(k - 1).toNat]? = some c := by
    rw [List.getElem?_take] at hsel
    by_cases h5 : (k - 1).toNat < MAX_LOCATION_ELICITATION_OPTIONS
    · rwa [if_pos h5] at hsel
    · rw [if_neg h5] at hsel; cases hsel
  have hcond : ¬(k - 1 < 0 ∨
      ((locations.take MAX_LOCATION_ELICITATION_OPTIONS).length : Int) ≤ k - 1) := by
    omega
  simp only [resolveMulti, if_pos rfl]
  rw [if_neg hcond, hloc]
  simp

/-- Claim C2: for more than one candidate, a declined or cancelled outcome, an
accepted outcome with no payload, or an accepted selection outside
`[1, truncated count]` makes `resolve_location` fail with the selection
error; no location is returned. -/
theorem resolve_location_invalid_outcome
    (name : String) (locations : List Candidate) (er : ElicitResult)
    (hlen : 1 < locations.length)
    (h : er.action ≠ ElicitAction.accept ∨ er.data = none ∨
      ∃ k : Int, er.data = some { selected_location_id := k } ∧
        (k < 1 ∨ ((locations.take MAX_LOCATION_ELICITATION_OPTIONS).length : Int) < k)) :
    (resolve_location name locations er).result = Except.error Err.selectionError := by
  rw [resolve_location_eq_multi _ _ _ hlen]
  rcases h with h | h | ⟨k, hdata, hk⟩
  · simp only [resolveMulti]
    rw [if_neg h]
  · by_cases ha : er.action = ElicitAction.accept
    · simp only [resolveMulti, if_pos ha, h]
    · simp only [resolveMulti]
      rw [if_neg ha]
  · by_cases ha : er.action = ElicitAction.accept
    · simp only [resolveMulti, if_pos ha, hdata]
      have hout : k - 1 < 0 ∨
          ((locations.take MAX_LOCATION_ELICITATION_OPTIONS).length : Int) ≤ k - 1 := by
        omega
      rw [if_pos hout]
    · simp only [resolveMulti]
      rw [if_neg ha]

/-- Claim C3: with zero candidates, `resolve_location` fails with the
not-found error carrying the original query text and issues no elicitation. -/
theorem resolve_location_no_candidates (name : String) (er : ElicitResult) :
    resolve_location name [] er
      = { result := Except.error (Err.notFound name), elicitation := none } := rfl

/-- Claim C4: with exactly one candidate, `resolve_location` promotes it
directly to `LocationInfo` and issues no elicitation. -/
theorem resolve_location_single_candidate (name : String) (c : Candidate)
    (er : ElicitResult) :
    resolve_location name [c] er
      = { result := Except.ok (toLocationInfo c), elicitation := none } := rfl

/-- Claim C5: with more than one candidate, the elicitation carries exactly
`min(N, MAX_LOCATION_ELICITATION_OPTIONS)` option lines inside the assembled
message, the `j`-th line renders the `j`-th candidate of the truncated list
and is numbered `j+1`, and the truncated list is an initial segment of the
full search result list. -/
theorem resolve_location_elicitation_options
    (name : String) (locations : List Candidate) (er : ElicitResult)
    (hlen : 1 < locations.length) :
    (resolve_location name locations er).elicitation
        = some (locationOptions locations,
            mkElicitMessage name (String.intercalate "\n" (locationOptions locations)))
    ∧ (locationOptions locations).length
        = min locations.length MAX_LOCATION_ELICITATION_OPTIONS
    ∧ (∀ j : Nat, (locationOptions locations)[j]?
        = ((locations.take MAX_LOCATION_ELICITATION_OPTIONS)[j]?).map
            (fun c => optionText j c))
    ∧ (∀ j : Nat, j < (locationOptions locations).length →
        ∃ rest : String,
          (locationOptions locations)[j]? = some (toString (j + 1) ++ ". " ++ rest))
    ∧ locations.take MAX_LOCATION_ELICITATION_OPTIONS
        ++ locations.drop MAX_LOCATION_ELICITATION_OPTIONS = locations := by
  refine ⟨?_, locationOptions_length locations, locationOptions_getElem? locations, ?_,
    List.take_append_drop _ _⟩
  · rw [resolve_location_eq_multi _ _ _ hlen]
    rfl
  · intro j hj
    have hlt : j < (locations.take MAX_LOCATION_ELICITATION_OPTIONS).length := by
      rw [locationOptions_length] at hj
      rw [List.length_take]
      omega
    refine ⟨(locations.take MAX_LOCATION_ELICITATION_OPTIONS)[j].name
        ++ admin_str (locations.take MAX_LOCATION_ELICITATION_OPTIONS)[j]
        ++ (", " ++ ((locations.take MAX_LOCATION_ELICITATION_OPTIONS)[j].country
            ++ pop_str (locations.take MAX_LOCATION_ELICITATION_OPTIONS)[j])), ?_⟩
    rw [locationOptions_getElem?, List.getElem?_eq_getElem hlt]
    simp [optionText, String.append_assoc]

theorem string_empty_append (s : String) : "" ++ s = s := rfl

theorem admin_str_eq (loc : Candidate) :
    admin_str loc =
      if truthyStr loc.admin1 then
        if truthyStr loc.admin2 ∧ loc.admin2 ≠ loc.admin1 then
          ", " ++ (loc.admin1.getD "" ++ ", " ++ loc.admin2.getD "")
        else ", " ++ loc.admin1.getD ""
      else
        if truthyStr loc.admin2 ∧ loc.admin2 ≠ loc.admin1 then
          ", " ++ loc.admin2.getD ""
        else "" := by
  unfold admin_str adminParts
  by_cases h1 : truthyStr loc.admin1 <;>
    by_cases h2 : truthyStr loc.admin2 ∧ loc.admin2 ≠ loc.admin1 <;>
      simp [h1, h2, String.intercalate, String.intercalate.go]

theorem truthyStr_of_some (s : String) (h : s ≠ "") (o : Option String) (ho : o = some s) :
    truthyStr o = true := by
  subst ho
  simp only [truthyStr, Bool.not_eq_true']
  rw [Bool.eq_false_iff]
  intro he
  exact h ((String.isEmpty_iff s).mp he)

/-- Claim C9: the rendered option line contains the position number, the
candidate name and the country; it contains the first-level admin name when
present (non-empty), the second-level admin name when present and different
from the first-level value; when the two admin values coincide only the
first-level one is kept; and the population, with thousands separators, is
rendered exactly when present and non-zero. -/
theorem optionText_line_contents (i : Nat) (loc : Candidate) :
    strContains (optionText i loc) (toString (i + 1) ++ ". ")
    ∧ strContains (optionText i loc) loc.name
    ∧ strContains (optionText i loc) loc.country
    ∧ (∀ a1 : String, loc.admin1 = some a1 → a1 ≠ "" → strContains (optionText i loc) a1)
    ∧ (∀ a2 : String, loc.admin2 = some a2 → a2 ≠ "" → loc.admin2 ≠ loc.admin1 →
        strContains (optionText i loc) a2)
    ∧ (loc.admin2 = loc.admin1 →
        adminParts loc = if truthyStr loc.admin1 then [loc.admin1.getD ""] else [])
    ∧ (∀ p : Nat, loc.population = some p → p ≠ 0 →
        strContains (optionText i loc) (" (pop. " ++ commaFormat p ++ ")"))
    ∧ (loc.population = none ∨ loc.population = some 0 → pop_str loc = "") := by
  refine ⟨?_, ?_, ?_, ?_, ?_, ?_, ?_, ?_⟩
  · exact ⟨"", loc.name ++ admin_str loc ++ ", " ++ loc.country ++ pop_str loc,
      by simp [optionText, String.append_assoc, string_empty_append]⟩
  · exact ⟨toString (i + 1) ++ ". ", admin_str loc ++ ", " ++ loc.country ++ pop_str loc,
      by simp [optionText, String.append_assoc]⟩
  · exact ⟨toString (i + 1) ++ ". " ++ loc.name ++ admin_str loc ++ ", ", pop_str loc,
      by simp [optionText, String.append_assoc]⟩
  · intro a1 ha1 hne
    have h1 : truthyStr loc.admin1 = true := truthyStr_of_some a1 hne _ ha1
    by_cases h2 : truthyStr loc.admin2 ∧ loc.admin2 ≠ loc.admin1
    · have hstr : admin_str loc = ", " ++ (a1 ++ ", " ++ loc.admin2.getD "") := by
        rw [admin_str_eq, if_pos h1, if_pos h2, ha1]
        rfl
      exact ⟨toString (i + 1) ++ ". " ++ loc.name ++ ", ",
        ", " ++ loc.admin2.getD "" ++ (", " ++ (loc.country ++ pop_str loc)),
        by rw [optionText, hstr]; simp [String.append_assoc]⟩
    · have hstr : admin_str loc = ", " ++ a1 := by
        rw [admin_str_eq, if_pos h1, if_neg h2, ha1]
        rfl
      exact ⟨toString (i + 1) ++ ". " ++ loc.name ++ ", ",
        ", " ++ (loc.country ++ pop_str loc),
        by rw [optionText, hstr]; simp [String.append_assoc]⟩
  · intro a2 ha2 hne2 hdiff
    have h2 : truthyStr loc.admin2 ∧ loc.admin2 ≠ loc.admin1 :=
      ⟨truthyStr_of_some a2 hne2 _ ha2, hdiff⟩
    by_cases h1 : truthyStr loc.admin1
    · have hstr : admin_str loc = ", " ++ (loc.admin1.getD "" ++ ", " ++ a2) := by
        rw [admin_str_eq, if_pos h1, if_pos h2, ha2]
        rfl
      exact ⟨toString (i + 1) ++ ". " ++ loc.name ++ ", " ++ loc.admin1.getD "" ++ ", ",
        ", " ++ (loc.country ++ pop_str loc),
        by rw [optionText, hstr]; simp [String.append_assoc]⟩
    · have hstr : admin_str loc = ", " ++ a2 := by
        rw [admin_str_eq, if_neg h1, if_pos h2, ha2]
        rfl
      exact ⟨toString (i + 1) ++ ". " ++ loc.name ++ ", ",
        ", " ++ (loc.country ++ pop_str loc),
        by rw [optionText, hstr]; simp [String.append_assoc]⟩
  · intro heq
    simp [adminParts, heq]
  · intro p hp hpz
    have hpop : pop_str loc = " (pop. " ++ commaFormat p ++ ")" := by
      simp [pop_str, hp, hpz]
    exact ⟨toString (i + 1) ++ ". " ++ loc.name ++ admin_str loc ++ ", " ++ loc.country, "",
      by rw [optionText, hpop]; simp [String.append_assoc]⟩
  · intro h
    rcases h with h | h <;> simp [pop_str, h]

/-- Claim C6 counterexample: `get_current_weather` receives a one-character
query (shorter than the two-character minimum) yet does not fail with the
length-validation error; it proceeds to resolution and surfaces the
resolver's not-found error instead. -/
theorem get_current_weather_skips_length_check :
    get_current_weather "x" [] sampleElicit sampleCurrentResponse
        = Except.error (Err.notFound "x")
    ∧ (pyStrip "x").length < 2
    ∧ Err.notFound "x" ≠ Err.tooShort :=
  ⟨rfl, by decide, by decide⟩

/-- Claim C6 amended: only `search_locations_tool` validates the two-character
minimum query length; the four weather handlers perform no query-length
validation and always proceed to resolution, whatever the query length. -/
theorem query_length_validation_amended :
    (∀ (name : String) (limit : Int) (api : Nat → List Candidate),
        (pyStrip name).length < 2 →
        search_locations_tool name limit api = Except.error Err.tooShort)
    ∧ (∀ (name : String) (er : ElicitResult) (wd : CurrentResponse),
        get_current_weather name [] er wd = Except.error (Err.notFound name))
    ∧ (∀ (name : String) (er : ElicitResult) (fd : Int) (api : Nat → DailyResponse)
          (now : String),
        get_weather_forecast name [] er fd api now = Except.error (Err.notFound name))
    ∧ (∀ (name : String) (er : ElicitResult) (fh : Int) (wd : HourlyResponse)
          (now : String),
        get_hourly_forecast name [] er fh wd now = Except.error (Err.notFound name))
    ∧ (∀ (name : String) (er : ElicitResult) (S F SN : List Nat) (thr : Rat)
          (cur : AlertsCurrent) (hr : AlertsHourly) (now : String),
        get_weather_alerts name [] er S F SN thr cur hr now
          = Except.error (Err.notFound name)) := by
  refine ⟨?_, ?_, ?_, ?_, ?_⟩
  · intro name limit api h
    unfold search_locations_tool
    rw [if_pos h]
  · intro name er wd
    rfl
  · intro name er fd api now
    rfl
  · intro name er fh wd now
    rfl
  · intro name er S F SN thr cur hr now
    rfl

theorem query_length_validation_amended_witness :
    search_locations_tool "x" 5 (fun _ => []) = Except.error Err.tooShort
    ∧ get_current_weather "q" [] sampleElicit sampleCurrentResponse
        = Except.error (Err.notFound "q") :=
  ⟨query_length_validation_amended.1 "x" 5 (fun _ => []) (by decide),
    query_length_validation_amended.2.1 "q" sampleElicit sampleCurrentResponse⟩

/-- Claim C7: day and hour counts are clamped into their configured bounds:
a request above the maximum behaves exactly as the maximum, a request below
the minimum behaves as the minimum, and a successful 30-day request against
an endpoint that returns the requested number of days yields exactly
`MAX_FORECAST_DAYS` (16) days of output. -/
theorem forecast_count_clamping
    (name : String) (locations : List Candidate) (er : ElicitResult)
    (api : Nat → DailyResponse) (wd : HourlyResponse) (now : String)
    (fdHigh fdLow fhHigh fhLow : Int) :
    ((MAX_FORECAST_DAYS : Int) ≤ fdHigh →
      get_weather_forecast name locations er fdHigh api now
        = get_weather_forecast name locations er (MAX_FORECAST_DAYS : Int) api now)
    ∧ (fdLow ≤ 1 →
      get_weather_forecast name locations er fdLow api now
        = get_weather_forecast name locations er 1 api now)
    ∧ ((MAX_FORECAST_HOURS : Int) ≤ fhHigh →
      get_hourly_forecast name locations er fhHigh wd now
        = get_hourly_forecast name locations er (MAX_FORECAST_HOURS : Int) wd now)
    ∧ (fhLow ≤ 1 →
      get_hourly_forecast name locations er fhLow wd now
        = get_hourly_forecast name locations er 1 wd now)
    ∧ ((∀ d : Nat, (api d).daily.time.length = d) →
      (resolve_location name locations er).result.isOk = true →
      Except.map (fun r => r.forecast_days.length)
          (get_weather_forecast name locations er 30 api now)
        = Except.ok MAX_FORECAST_DAYS) := by
  refine ⟨?_, ?_, ?_, ?_, ?_⟩
  · intro h
    have hc : clampForecastDays fdHigh = clampForecastDays (MAX_FORECAST_DAYS : Int) := by
      simp only [clampForecastDays, MAX_FORECAST_DAYS] at *
      omega
    simp only [get_weather_forecast, hc]
  · intro h
    have hc : clampForecastDays fdLow = clampForecastDays 1 := by
      simp only [clampForecastDays, MAX_FORECAST_DAYS] at *
      omega
    simp only [get_weather_forecast, hc]
  · intro h
    have hc : clampForecastHours fhHigh = clampForecastHours (MAX_FORECAST_HOURS : Int) := by
      simp only [clampForecastHours, MAX_FORECAST_HOURS] at *
      omega
    simp only [get_hourly_forecast, hc]
  · intro h
    have hc : clampForecastHours fhLow = clampForecastHours 1 := by
      simp only [clampForecastHours, MAX_FORECAST_HOURS] at *
      omega
    simp only [get_hourly_forecast, hc]
  · intro hapi hok
    cases hres : (resolve_location name locations er).result with
    | error e => rw [hres] at hok; cases hok
    | ok loc =>
      simp only [get_weather_forecast, hres, Except.map]
      have h30 : clampForecastDays 30 = MAX_FORECAST_DAYS := rfl
      simp [h30, hapi]

theorem isSevere_thunder (c : Nat) : isSevereAlert (thunderstormWarningAlert c) = true := rfl

theorem isSevere_freezing (c : Nat) : isSevereAlert (freezingRainWarningAlert c) = true := rfl

theorem isSevere_snow (c : Nat) : isSevereAlert (snowAdvisoryAlert c) = false := rfl

theorem isSevere_wind (w : Rat) : isSevereAlert (highWindWarningAlert w) = false := rfl

theorem isSevere_incoming (t : String) :
    isSevereAlert (incomingThunderstormAlert t) = true := rfl

theorem title_thunder (c : Nat) :
    ((thunderstormWarningAlert c).title == "Incoming Thunderstorm") = false := rfl

theorem title_freezing (c : Nat) :
    ((freezingRainWarningAlert c).title == "Incoming Thunderstorm") = false := rfl

theorem title_snow (c : Nat) :
    ((snowAdvisoryAlert c).title == "Incoming Thunderstorm") = false := rfl

theorem title_wind (w : Rat) :
    ((highWindWarningAlert w).title == "Incoming Thunderstorm") = false := rfl

theorem title_incoming (t : String) :
    ((incomingThunderstormAlert t).title == "Incoming Thunderstorm") = true := rfl

theorem scanUpcoming_of_any (S : List Nat) (pairs : List (String × Nat))
    (alerts : List Alert) (h : alerts.any isSevereAlert = true) :
    scanUpcoming S pairs alerts = alerts := by
  induction pairs with
  | nil => rfl
  | cons p rest ih =>
    obtain ⟨t, c⟩ := p
    simp only [scanUpcoming]
    rw [if_neg fun hc => hc.2 h]
    exact ih

theorem scanUpcoming_characterization (S : List Nat) (pairs : List (String × Nat))
    (alerts : List Alert) :
    scanUpcoming S pairs alerts =
      if alerts.any isSevereAlert then alerts
      else
        match pairs.find? (fun p => decide (p.2 ∈ S)) with
        | some (t, _) => alerts ++ [incomingThunderstormAlert t]
        | none => alerts := by
  induction pairs with
  | nil =>
    simp only [scanUpcoming, List.find?_nil]
    split <;> rfl
  | cons p rest ih =>
    obtain ⟨t, c⟩ := p
    by_cases hany : alerts.any isSevereAlert
    · rw [if_pos hany]
      exact scanUpcoming_of_any S _ alerts hany
    · rw [if_neg hany]
      by_cases hc : c ∈ S
      · simp only [scanUpcoming]
        rw [if_pos ⟨hc, hany⟩, List.find?_cons_of_pos _ (by simpa using hc)]
      · simp only [scanUpcoming]
        rw [if_neg fun hx => hc hx.1, List.find?_cons_of_neg _ (by simpa using hc), ih,
          if_neg hany]

theorem mem_scanUpcoming (S : List Nat) (pairs : List (String × Nat))
    (alerts : List Alert) (a : Alert) (h : a ∈ alerts) :
    a ∈ scanUpcoming S pairs alerts := by
  rw [scanUpcoming_characterization]
  by_cases hany : alerts.any isSevereAlert
  · rw [if_pos hany]
    exact h
  · rw [if_neg hany]
    rcases hfind : pairs.find? (fun p => decide (p.2 ∈ S)) with _ | ⟨t, c⟩
    · rw [hfind]
      exact h
    · rw [hfind]
      exact List.mem_append_left _ h

theorem currentAlerts_countP_severe (S F SN : List Nat) (thr : Rat)
    (cur : AlertsCurrent) :
    (currentAlerts S F SN thr cur).countP isSevereAlert ≤ 1 := by
  simp only [currentAlerts]
  split_ifs <;>
    simp [List.countP_cons, List.countP_append, isSevere_thunder, isSevere_freezing,
      isSevere_snow, isSevere_wind]

theorem currentAlerts_countP_incoming (S F SN : List Nat) (thr : Rat)
    (cur : AlertsCurrent) :
    (currentAlerts S F SN thr cur).countP
      (fun a => a.title == "Incoming Thunderstorm") = 0 := by
  simp only [currentAlerts]
  split_ifs <;>
    simp [List.countP_cons, List.countP_append, title_thunder, title_freezing,
      title_snow, title_wind]

theorem currentAlerts_any_of_severe (S F SN : List Nat) (thr : Rat)
    (cur : AlertsCurrent) (h : cur.weather_code ∈ S) :
    (currentAlerts S F SN thr cur).any isSevereAlert = true := by
  simp only [currentAlerts, if_pos h]
  split_ifs <;> simp [isSevere_thunder]

theorem currentAlerts_filter_severe_of_mem (S F SN : List Nat) (thr : Rat)
    (cur : AlertsCurrent) (h : cur.weather_code ∈ S) :
    (currentAlerts S F SN thr cur).filter isSevereAlert
      = [thunderstormWarningAlert cur.weather_code] := by
  simp only [currentAlerts, if_pos h]
  split_ifs <;>
    simp [List.filter_cons, List.filter_append, isSevere_thunder, isSevere_wind]

theorem computeAlerts_countP_severe (S F SN : List Nat) (thr : Rat)
    (cur : AlertsCurrent) (hourly : AlertsHourly) :
    (computeAlerts S F SN thr cur hourly).countP isSevereAlert ≤ 1 := by
  unfold computeAlerts
  rw [scanUpcoming_characterization]
  by_cases hany : (currentAlerts S F SN thr cur).any isSevereAlert
  · rw [if_pos hany]
    exact currentAlerts_countP_severe S F SN thr cur
  · rw [if_neg hany]
    simp only [Bool.not_eq_true] at hany
    have h0 : (currentAlerts S F SN thr cur).countP isSevereAlert = 0 := by
      rw [List.countP_eq_zero]
      intro a ha
      simpa using List.any_eq_false.mp hany a ha
    rcases hfind : ((hourly.time.zip hourly.weather_code).take 24).find?
        (fun p => decide (p.2 ∈ S)) with _ | ⟨t, c⟩
    · rw [hfind]
      simp [h0]
    · rw [hfind]
      simp [List.countP_append, h0, List.countP_cons, isSevere_incoming]

/-- Claim C8: a current weather code in the thunderstorm set yields exactly
one severe-weather entry, the high-severity Thunderstorm Warning (so the
upcoming-storm scan adds no duplicate); a wind speed above the threshold
always contributes the wind-warning entry; the upcoming-storm scan records at
most one entry; and the whole computation equals the current alerts plus, only
when no severe-weather alert exists yet, one entry for the first severe code
among the next 24 hourly samples. -/
theorem get_weather_alerts_rules (S F SN : List Nat) (thr : Rat)
    (cur : AlertsCurrent) (hourly : AlertsHourly) :
    (cur.weather_code ∈ S →
      (computeAlerts S F SN thr cur hourly).filter isSevereAlert
        = [thunderstormWarningAlert cur.weather_code])
    ∧ (thr < cur.wind_speed_10m →
      highWindWarningAlert cur.wind_speed_10m ∈ computeAlerts S F SN thr cur hourly)
    ∧ (computeAlerts S F SN thr cur hourly).countP
        (fun a => a.title == "Incoming Thunderstorm") ≤ 1
    ∧ computeAlerts S F SN thr cur hourly
        = (if (currentAlerts S F SN thr cur).any isSevereAlert then
            currentAlerts S F SN thr cur
          else
            match ((hourly.time.zip hourly.weather_code).take 24).find?
                (fun p => decide (p.2 ∈ S)) with
            | some (t, _) => currentAlerts S F SN thr cur ++ [incomingThunderstormAlert t]
            | none => currentAlerts S F SN thr cur) := by
  refine ⟨?_, ?_, ?_, scanUpcoming_characterization S _ _⟩
  · intro h
    unfold computeAlerts
    rw [scanUpcoming_of_any _ _ _ (currentAlerts_any_of_severe S F SN thr cur h)]
    exact currentAlerts_filter_severe_of_mem S F SN thr cur h
  · intro h
    unfold computeAlerts
    apply mem_scanUpcoming
    simp only [currentAlerts, if_pos h]
    exact List.mem_append_right _ (List.mem_singleton.mpr rfl)
  · unfold computeAlerts
    rw [scanUpcoming_characterization]
    by_cases hany : (currentAlerts S F SN thr cur).any isSevereAlert
    · rw [if_pos hany]
      simp [currentAlerts_countP_incoming]
    · rw [if_neg hany]
      rcases hfind : ((hourly.time.zip hourly.weather_code).take 24).find?
          (fun p => decide (p.2 ∈ S)) with _ | ⟨t, c⟩
      · rw [hfind]
        simp [currentAlerts_countP_incoming]
      · rw [hfind]
        simp [List.countP_append, List.countP_cons, currentAlerts_countP_incoming,
          title_incoming]

/-- Claim C10: every successful `get_weather_alerts` invocation returns at
most one severe-weather entry, and its `alert_count` equals the length of the
alerts list. -/
theorem get_weather_alerts_result_invariants
    (name : String) (locations : List Candidate) (er : ElicitResult)
    (S F SN : List Nat) (thr : Rat) (cur : AlertsCurrent) (hourly : AlertsHourly)
    (now : String) (r : AlertsResult)
    (h : get_weather_alerts name locations er S F SN thr cur hourly now = Except.ok r) :
    r.alerts.countP isSevereAlert ≤ 1 ∧ r.alert_count = r.alerts.length := by
  unfold get_weather_alerts at h
  cases hres : (resolve_location name locations er).result with
  | error e => rw [hres] at h; cases h
  | ok loc =>
    rw [hres] at h
    injection h with h
    subst h
    exact ⟨computeAlerts_countP_severe S F SN thr cur hourly, rfl⟩

theorem resolve_location_in_range_selection_witness :
    (resolve_location "Springfield" [springfieldIL, springfieldMO, parisCandidate]
        { action := ElicitAction.accept, data := some { selected_location_id := 2 } }).result
      = Except.ok (toLocationInfo springfieldMO)
    ∧ springfieldMO
        ∈ [springfieldIL, springfieldMO, parisCandidate].take MAX_LOCATION_ELICITATION_OPTIONS :=
  resolve_location_in_range_selection "Springfield"
    [springfieldIL, springfieldMO, parisCandidate] 2 springfieldMO
    (by decide) (by decide) rfl

theorem resolve_location_invalid_outcome_witness :
    (resolve_location "Springfield" [springfieldIL, springfieldMO] sampleElicit).result
      = Except.error Err.selectionError :=
  resolve_location_invalid_outcome "Springfield" [springfieldIL, springfieldMO]
    sampleElicit (by decide) (Or.inl (by decide))

theorem resolve_location_elicitation_options_witness :
    (resolve_location "Springfield" [springfieldIL, springfieldMO] sampleElicit).elicitation
        = some (locationOptions [springfieldIL, springfieldMO],
            mkElicitMessage "Springfield"
              (String.intercalate "\n" (locationOptions [springfieldIL, springfieldMO])))
    ∧ (locationOptions [springfieldIL, springfieldMO]).length
        = min [springfieldIL, springfieldMO].length MAX_LOCATION_ELICITATION_OPTIONS
    ∧ (locationOptions [springfieldIL, springfieldMO])[0]?
        = (([springfieldIL, springfieldMO].take MAX_LOCATION_ELICITATION_OPTIONS)[0]?).map
            (fun c => optionText 0 c)
    ∧ [springfieldIL, springfieldMO].take MAX_LOCATION_ELICITATION_OPTIONS
        ++ [springfieldIL, springfieldMO].drop MAX_LOCATION_ELICITATION_OPTIONS
        = [springfieldIL, springfieldMO] := by
  have T := resolve_location_elicitation_options "Springfield"
    [springfieldIL, springfieldMO] sampleElicit (by decide)
  exact ⟨T.1, T.2.1, T.2.2.1 0, T.2.2.2.2⟩

theorem forecast_count_clamping_witness :
    get_weather_forecast "Paris" [parisCandidate] sampleElicit 30 sampleDailyApi "t"
      = get_weather_forecast "Paris" [parisCandidate] sampleElicit (MAX_FORECAST_DAYS : Int)
          sampleDailyApi "t"
    ∧ get_weather_forecast "Paris" [parisCandidate] sampleElicit 0 sampleDailyApi "t"
      = get_weather_forecast "Paris" [parisCandidate] sampleElicit 1 sampleDailyApi "t"
    ∧ get_hourly_forecast "Paris" [parisCandidate] sampleElicit 200 sampleHourlyResponse "t"
      = get_hourly_forecast "Paris" [parisCandidate] sampleElicit (MAX_FORECAST_HOURS : Int)
          sampleHourlyResponse "t"
    ∧ get_hourly_forecast "Paris" [parisCandidate] sampleElicit (-3) sampleHourlyResponse "t"
      = get_hourly_forecast "Paris" [parisCandidate] sampleElicit 1 sampleHourlyResponse "t"
    ∧ Except.map (fun r => r.forecast_days.length)
        (get_weather_forecast "Paris" [parisCandidate] sampleElicit 30 sampleDailyApi "t")
      = Except.ok MAX_FORECAST_DAYS := by
  have T := forecast_count_clamping "Paris" [parisCandidate] sampleElicit sampleDailyApi
    sampleHourlyResponse "t" 30 0 200 (-3)
  exact ⟨T.1 (by decide), T.2.1 (by decide), T.2.2.1 (by decide), T.2.2.2.1 (by decide),
    T.2.2.2.2 (fun d => by simp [sampleDailyApi]) rfl⟩

theorem get_weather_alerts_rules_witness :
    (computeAlerts [95, 96, 99] [66, 67] [71, 73, 75] 50
        { weather_code := 95, wind_speed_10m := 60 }
        { time := ["t0"], weather_code := [95] }).filter isSevereAlert
      = [thunderstormWarningAlert 95]
    ∧ highWindWarningAlert 60
        ∈ computeAlerts [95, 96, 99] [66, 67] [71, 73, 75] 50
            { weather_code := 95, wind_speed_10m := 60 }
            { time := ["t0"], weather_code := [95] }
    ∧ (computeAlerts [95, 96, 99] [66, 67] [71, 73, 75] 50
        { weather_code := 95, wind_speed_10m := 60 }
        { time := ["t0"], weather_code := [95] }).countP
          (fun a => a.title == "Incoming Thunderstorm") ≤ 1 := by
  have T := get_weather_alerts_rules [95, 96, 99] [66, 67] [71, 73, 75] 50
    { weather_code := 95, wind_speed_10m := 60 } { time := ["t0"], weather_code := [95] }
  exact ⟨T.1 (by decide), T.2.1 (by decide), T.2.2.1⟩

theorem optionText_line_contents_witness :
    strContains (optionText 0 springfieldIL) (toString (0 + 1) ++ ". ")
    ∧ strContains (optionText 0 springfieldIL) "Illinois"
    ∧ strContains (optionText 0 springfieldIL) "Sangamon"
    ∧ strContains (optionText 0 springfieldIL) (" (pop. " ++ commaFormat 1234567 ++ ")")
    ∧ adminParts springfieldMO
        = (if truthyStr springfieldMO.admin1 then [springfieldMO.admin1.getD ""] else [])
    ∧ pop_str springfieldMO = "" := by
  have T := optionText_line_contents 0 springfieldIL
  have U := optionText_line_contents 0 springfieldMO
  exact ⟨T.1, T.2.2.2.1 "Illinois" rfl (by decide),
    T.2.2.2.2.1 "Sangamon" rfl (by decide) (by decide),
    T.2.2.2.2.2.2.1 1234567 rfl (by decide),
    U.2.2.2.2.2.1 rfl, U.2.2.2.2.2.2.2 (Or.inl rfl)⟩

theorem get_weather_alerts_result_invariants_witness :
    sampleAlertsResult.alerts.countP isSevereAlert ≤ 1
    ∧ sampleAlertsResult.alert_count = sampleAlertsResult.alerts.length :=
  get_weather_alerts_result_invariants "Paris" [parisCandidate] sampleElicit
    [95, 96, 99] [66, 67] [71, 73, 75] 50 { weather_code := 0, wind_speed_10m := 0 }
    { time := [], weather_code := [] } "t" sampleAlertsResult rfl
